import Mathlib

/-
  Formal model (shallow embedding) of the j-scraper repository.

  Source files modelled:
    - src/scraper/parsers/jeopardy_game.py        (class JeopardyGameParser)
    - src/scraper/parsers/jeopardy_season_list.py (class JeopardySeasonListParser)
    - src/scraper/file_storage.py                 (class FileStorageManager)
    - src/scraper/scraper.py                      (class WebScraper)

  The Selenium render surface is modelled by explicit page/element values:
  an `Option` field models `find_element`, whose `none` case stands for a
  raised `NoSuchElementException`; fallible Python code is modelled with
  `Except String`, the error string standing for the raised exception's
  message.  Python dicts built by the parsers are modelled by structures
  whose fields are exactly the dict keys the source writes.
-/

/- ===== Python helpers ===== -/

/-- Python whitespace characters stripped by `str.strip()`. -/
def is_space (c : Char) : Bool :=
  c == ' ' || c == '\t' || c == '\n' || c == '\r' || c == '\x0b' || c == '\x0c'

def py_strip_chars (l : List Char) : List Char :=
  ((l.dropWhile is_space).reverse.dropWhile is_space).reverse

/-- Model of Python `str.strip()`. -/
def py_strip (s : String) : String := String.mk (py_strip_chars s.toList)

def digits_to_nat (ds : List Char) : Nat :=
  ds.foldl (fun n c => n * 10 + (c.toNat - '0'.toNat)) 0

/-- Strip a literal pattern from the front of a character list
(`none` when the pattern is not a prefix). -/
def strip_lit : List Char → List Char → Option (List Char)
  | [], cs => some cs
  | _ :: _, [] => none
  | p :: ps, c :: cs => if c = p then strip_lit ps cs else none

/- ===== JeopardyGameParser (src/scraper/parsers/jeopardy_game.py) ===== -/

/-- Outcome of a Selenium `element.click()` call:
it may succeed, raise `NoSuchElementException`, raise
`ElementClickInterceptedException`, or raise some other exception. -/
inductive ClickOutcome where
  | success
  | notFound
  | intercepted
  | otherFail (msg : String)
deriving Repr, DecidableEq

/-- Model of one `clue` element of a main round.
`clue_text` is the text of the `.clue_text` child (`none` = absent);
`has_clue_value` / `has_dd_value` model presence of the `.clue_value` /
`.clue_value_daily_double` children; `click_result` is what happens when the
found value cell is clicked; `correct_response` is the text of the
`.correct_response` child (`none` = absent); `outerHTML` is the element's
raw markup as returned by `get_attribute("outerHTML")`. -/
structure ClueElement where
  clue_text : Option String
  has_clue_value : Bool
  has_dd_value : Bool
  click_result : ClickOutcome
  correct_response : Option String
  outerHTML : String
deriving Repr, DecidableEq

/-- Model of a main-round container (`#jeopardy_round` / `#double_jeopardy_round`):
texts of its `.category_name` elements and its `.clue` elements in document order. -/
structure RoundElement where
  category_names : List String
  clue_elems : List ClueElement
deriving Repr, DecidableEq

/-- Model of the `#final_jeopardy_round` container. -/
structure FinalRoundElement where
  category_name : Option String
  clue_text : Option String
  has_tr : Bool
  tr_click : ClickOutcome
  correct_response : Option String
deriving Repr, DecidableEq

/-- Model of one rendered game page: the `#game_title` element's text and the
three round containers (`none` = `find_element` raises). -/
structure GamePage where
  game_title : Option String
  jeopardy_round : Option RoundElement
  double_jeopardy_round : Option RoundElement
  final_jeopardy_round : Option FinalRoundElement
deriving Repr, DecidableEq

/-- One entry of the game dict's `"clues"` list (jeopardy_game.py lines 80-89
and 125-134); the fields are the dict keys the source writes. -/
structure Clue where
  category : String
  clue_text : String
  correct_response : String
  round : String
  is_daily_double : Bool
  dollar_val : Option Int
deriving Repr, DecidableEq

/-- One entry of the game dict's `"skipped_clues"` list
(jeopardy_game.py lines 92-98). -/
structure SkippedClue where
  round : String
  error : String
  raw_html : String
deriving Repr, DecidableEq

/-- The dict built by `JeopardyGameParser.parse`
(`{"game_id": None, "game_date": None, "clues": [], "skipped_clues": []}`).
It has exactly these four keys; in particular it has no `errors` key. -/
structure GameData where
  game_id : Option Nat
  game_date : Option String
  clues : List Clue
  skipped_clues : List SkippedClue
deriving Repr, DecidableEq

def empty_game_data : GameData :=
  { game_id := none, game_date := none, clues := [], skipped_clues := [] }

/-- Try to match the regex `Show #(\d+) - (.+)` at the start of `cs`:
the literal `Show #`, then one or more digits (greedy; the following
separator contains no digit, so no backtracking arises), then the literal
` - `, then one or more non-newline characters (greedy, to end of line). -/
def match_show_at (cs : List Char) : Option (Nat × String) :=
  match strip_lit "Show #".toList cs with
  | none => none
  | some r1 =>
    let ds := r1.takeWhile Char.isDigit
    let r2 := r1.drop ds.length
    if ds.isEmpty then none
    else
      match strip_lit " - ".toList r2 with
      | none => none
      | some r3 =>
        let rest := r3.takeWhile (fun c => c ≠ '\n')
        if rest.isEmpty then none else some (digits_to_nat ds, String.mk rest)

/-- Model of `re.search(r"Show #(\d+) - (.+)", game_title)`:
leftmost position at which the pattern matches. -/
def search_show : List Char → Option (Nat × String)
  | [] => none
  | c :: rest =>
    match match_show_at (c :: rest) with
    | some r => some r
    | none => search_show rest

/-- Source `JeopardyGameParser._extract_game_metadata` (lines 39-48): reads the
`#game_title` text, applies the regex, and returns
`(int(group(1)), group(2).strip())`; on a missing element or a failed match
it returns `(None, None)` (the exception is caught and only printed). -/
def extract_game_metadata (game_title : Option String) : Option Nat × Option String :=
  match game_title with
  | none => (none, none)
  | some t =>
    match search_show t.toList with
    | some (n, d) => (some n, some (py_strip d))
    | none => (none, none)

/-- Source `JeopardyGameParser._extract_categories` (lines 139-143). -/
def extract_categories (r : RoundElement) : List String :=
  r.category_names.map py_strip

/-- Source `JeopardyGameParser._infer_dollar_value` (lines 176-184).
`row = clue_index // 6`; the ladder indexing `[...][row]` raises
`IndexError` when `row` is past the end, modelled by the `error` case. -/
def infer_dollar_value (clue_index : Nat) (round_name : String) : Except String (Option Int) :=
  let row := clue_index / 6
  if round_name = "SJ" then
    match [200, 400, 600, 800, 1000].get? row with
    | some v => Except.ok (some v)
    | none => Except.error "IndexError: list index out of range"
  else if round_name = "DJ" then
    match [400, 800, 1200, 1600, 2000].get? row with
    | some v => Except.ok (some v)
    | none => Except.error "IndexError: list index out of range"
  else
    Except.ok none

/-- Source `JeopardyGameParser._click_clue_value` (lines 153-165): find `.clue_value`,
falling back to `.clue_value_daily_double`; click it.  `NoSuchElementException`
and `ElementClickInterceptedException` (from the finds or the click) are caught
and only printed; any other exception from the click propagates. -/
def click_clue_value (e : ClueElement) : Except String Unit :=
  if e.has_clue_value || e.has_dd_value then
    match e.click_result with
    | ClickOutcome.otherFail msg => Except.error msg
    | _ => Except.ok ()
  else
    Except.ok ()

/-- Source `JeopardyGameParser._extract_correct_response` (lines 167-174):
the `.correct_response` text (stripped), or the sentinel `"[Unknown]"` when
the element is absent (`NoSuchElementException` caught). -/
def extract_correct_response (e : ClueElement) : String :=
  match e.correct_response with
  | some t => py_strip t
  | none => "[Unknown]"

/-- The assign-category step of the clue loop (jeopardy_game.py lines 72-78):
`category_index = clue_index % len(categories)` and then the conditional
expression `categories[category_index] if category_index < len(categories)
else "Unknown"`.  (The modulo itself raises `ZeroDivisionError` when the
category list is empty; that is handled by the caller, `process_clue`.) -/
def assign_category (categories : List String) (clue_index : Nat) : String :=
  let category_index := clue_index % categories.length
  if category_index < categories.length then categories.getD category_index ""
  else "Unknown"

/-- Body of the per-clue `try` block of
`JeopardyGameParser._extract_main_round_data` (lines 60-89), in source order:
read `.clue_text` (raises if absent), read the daily-double flag, infer the
dollar value (may raise `IndexError`), click to reveal (may propagate a
non-handled click exception), read the correct response, and assign the
category (`clue_index % len(categories)` raises `ZeroDivisionError` on an
empty category list).  Any raise is the `error` case, caught by the caller. -/
def process_clue (round_name : String) (categories : List String) (clue_index : Nat)
    (e : ClueElement) : Except String Clue :=
  match e.clue_text with
  | none => Except.error "NoSuchElementException: clue_text"
  | some t =>
    match infer_dollar_value clue_index round_name with
    | Except.error m => Except.error m
    | Except.ok dv =>
      match click_clue_value e with
      | Except.error m => Except.error m
      | Except.ok _ =>
        if categories.length = 0 then
          Except.error "ZeroDivisionError: integer division or modulo by zero"
        else
          Except.ok
            { category := assign_category categories clue_index
              clue_text := py_strip t
              correct_response := extract_correct_response e
              round := round_name
              is_daily_double := e.has_dd_value
              dollar_val := dv }

/-- The `for clue_index, clue_element in enumerate(clue_elements)` loop of
`_extract_main_round_data` (lines 59-98): a successful clue is appended to
`data["clues"]`, a raising one is appended to `data["skipped_clues"]` as
`{"round": ..., "error": str(e), "raw_html": outerHTML}`, and the loop moves
on.  `clue_index` is the running enumeration index. -/
def process_clues (round_name : String) (categories : List String) :
    Nat → List ClueElement → GameData → GameData
  | _, [], data => data
  | clue_index, e :: rest, data =>
    let data2 :=
      match process_clue round_name categories clue_index e with
      | Except.ok c => { data with clues := data.clues ++ [c] }
      | Except.error msg =>
        { data with skipped_clues :=
            data.skipped_clues ++ [⟨round_name, msg, e.outerHTML⟩] }
    process_clues round_name categories (clue_index + 1) rest data2

/-- Source `JeopardyGameParser._extract_main_round_data` (lines 50-101): locate the
round container (`none` = `find_element` raises, caught at line 100 and only
printed, leaving `data` untouched), read categories, and run the clue loop. -/
def extract_main_round_data (relem : Option RoundElement) (round_name : String)
    (data : GameData) : GameData :=
  match relem with
  | none => data
  | some r => process_clues round_name (extract_categories r) 0 r.clue_elems data

/-- Source `JeopardyGameParser._extract_final_round_data` (lines 103-137): category
text, clue text, the first `tr` row and its click, then the revealed response;
a failure at any step (absent element or any click exception) is caught by the
round-level `except` (line 136) and only printed, leaving `data` untouched.
On success one clue is appended with `round = "FJ"`, `is_daily_double = False`
and `dollar_val = None`. -/
def extract_final_round_data (fr : Option FinalRoundElement) (data : GameData) : GameData :=
  match fr with
  | none => data
  | some f =>
    match f.category_name, f.clue_text with
    | some cat, some ct =>
      if f.has_tr then
        match f.tr_click with
        | ClickOutcome.success =>
          match f.correct_response with
          | some resp =>
            { data with clues := data.clues ++
                [⟨py_strip cat, py_strip ct, py_strip resp, "FJ", false, none⟩] }
          | none => data
        | _ => data
      else data
    | _, _ => data

/-- Source `JeopardyGameParser.parse` (lines 17-37): start from the fresh dict,
extract metadata, the two main rounds in fixed order (`"jeopardy_round"` as
`"SJ"`, then `"double_jeopardy_round"` as `"DJ"`), then Final Jeopardy.
Every step catches its own exceptions, so the top-level `except` (line 34)
never fires in this model; the accumulated dict is always returned. -/
def parse (p : GamePage) : GameData :=
  let md := extract_game_metadata p.game_title
  let data0 : GameData :=
    { game_id := md.1, game_date := md.2, clues := [], skipped_clues := [] }
  let data1 := extract_main_round_data p.jeopardy_round "SJ" data0
  let data2 := extract_main_round_data p.double_jeopardy_round "DJ" data1
  extract_final_round_data p.final_jeopardy_round data2

/- ===== JeopardySeasonListParser (src/scraper/parsers/jeopardy_season_list.py) ===== -/

/-- Model of a season-list page: `none` when `#content` or its `table` is
absent (the `find_element` raises); otherwise the list of table rows, each
carrying the `href` of its first link (`none` = the row has no link, or the
attribute is absent so `.split` raises on `None`). -/
structure SeasonListPage where
  content_table : Option (List (Option String))
deriving Repr, DecidableEq

/-- The dict built by `JeopardySeasonListParser.parse`: `{"game_ids": []}`.
It has exactly this one key; in particular it has no `errors` key. -/
structure SeasonListData where
  game_ids : List Int
deriving Repr, DecidableEq

/-- Model of Python `s.split(sep)[-1]`: the substring after the last
occurrence of `sep` (the whole string when `sep` does not occur). -/
def split_last (sep s : String) : String :=
  (s.splitOn sep).getLastD s

/-- Model of Python `int(s)` on a string: optional surrounding whitespace,
optional sign, then decimal digits; anything else raises `ValueError`.
(CPython additionally accepts single underscores between digits; no input
of this system produces those, and they are not modelled.) -/
def py_int (s : String) : Option Int :=
  let t := py_strip_chars s.toList
  let core : Int × List Char :=
    match t with
    | '-' :: rest => (-1, rest)
    | '+' :: rest => (1, rest)
    | l => (1, l)
  if core.2.isEmpty then none
  else if core.2.all Char.isDigit then some (core.1 * (digits_to_nat core.2 : Int))
  else none

/-- Source `JeopardySeasonListParser._extract_game_ids` (lines 23-37): find
`#content`, its table and rows; collect each row's first link (the
comprehension raises on the first row without one); then parse the trailing
numeric id out of each `href` (raising `ValueError` on a non-numeric tail,
or `AttributeError` when the attribute was absent). -/
def extract_game_ids (p : SeasonListPage) : Except String (List Int) :=
  match p.content_table with
  | none => Except.error "NoSuchElementException"
  | some rows => do
    let links ← rows.mapM (fun l =>
      match l with
      | none => Except.error "NoSuchElementException"
      | some h => Except.ok h)
    links.mapM (fun href =>
      match py_int (split_last "?game_id=" href) with
      | some n => Except.ok n
      | none => Except.error "ValueError: invalid literal for int()")

/-- Source `JeopardySeasonListParser.parse` (lines 11-21): start from
`{"game_ids": []}`; on any exception from `_extract_game_ids` the `except`
only prints and the dict keeps its initial empty list. -/
def parse_season_list (p : SeasonListPage) : SeasonListData :=
  match extract_game_ids p with
  | Except.ok ids => { game_ids := ids }
  | Except.error _ => { game_ids := [] }

/- ===== FileStorageManager (src/scraper/file_storage.py) ===== -/

/-- The `_metadata` dict attached by the orchestrator (scraper.py lines 114-120
and 140-148).  The success path writes only `id`, `url` and `timestamp`; the
`errors` / `scrape_failed` keys are then absent, which the code only ever
observes through `.get("errors", [])` / `.get("scrape_failed", False)`, so
absence is modelled by those defaults (`[]` / `false`). -/
structure Metadata where
  id : String
  url : String
  timestamp : String
  errors : List String
  scrape_failed : Bool
deriving Repr, DecidableEq

/-- A record as passed to `FileStorageManager.save_data` by the scraper for
the game parser: the parser dict plus the `_metadata` bag.  The fatal-error
record (scraper.py lines 140-148) has none of the parser keys; the code only
reads them through `.get("skipped_clues", [])`, so absence is modelled by
`empty_game_data`. -/
structure ScrapedData where
  game : GameData
  metadata : Metadata
deriving Repr, DecidableEq

/-- Source `FileStorageManager` state (file_storage.py): `processed_ids` is the
in-memory `set` of processed ids; `processed_file` is the line list of
`processed_ids.txt` (opened in append mode on every write); `records` models
the per-id `{id}.json` files, newest binding first. -/
structure FileStorageManager where
  data_dir : String
  processed_ids : List String
  processed_file : List String
  records : List (String × ScrapedData)
deriving Repr, DecidableEq

/-- Source `FileStorageManager.is_processed` (lines 35-45): `item_id in self.processed_ids`. -/
def FileStorageManager.is_processed (s : FileStorageManager) (item_id : String) : Bool :=
  s.processed_ids.contains item_id

/-- Source `FileStorageManager._mark_as_processed` (lines 47-56): add `item_id` to the
in-memory set (a no-op when already present) and open `processed_ids.txt` in
append mode (`"a"`), writing the id as one new line at the end. -/
def FileStorageManager.mark_as_processed (s : FileStorageManager) (item_id : String) :
    FileStorageManager :=
  { s with
    processed_ids :=
      if s.processed_ids.contains item_id then s.processed_ids
      else item_id :: s.processed_ids
    processed_file := s.processed_file ++ [item_id] }

/-- Source `FileStorageManager.save_data` (lines 58-75): write `{item_id}.json`
wholesale (overwriting any prior value), then `_mark_as_processed(item_id)`
— unconditionally, whatever the record contains — and return the file path. -/
def FileStorageManager.save_data (s : FileStorageManager) (item_id : String)
    (data : ScrapedData) : FileStorageManager × String :=
  let filepath := s.data_dir ++ "/" ++ item_id ++ ".json"
  let s1 : FileStorageManager := { s with records := (item_id, data) :: s.records }
  (s1.mark_as_processed item_id, filepath)

/-- Source `FileStorageManager.get_data` (lines 77-92): the last record saved for
`item_id`, or `none` when no file exists. -/
def FileStorageManager.get_data (s : FileStorageManager) (item_id : String) :
    Option ScrapedData :=
  s.records.lookup item_id

/- ===== WebScraper (src/scraper/scraper.py) ===== -/

/-- The external world as the scraper sees it: navigating to the page of a
given id either renders a game page or raises (`driver.get` failing), with
the error case carrying the exception's message. -/
def World : Type := String → Except String GamePage

/-- The record built on the success path of `scrape_page`
(scraper.py lines 103-132): the parser dict plus
`_metadata = {id, url, timestamp}`. -/
def success_record (ts url_base item_id : String) (p : GamePage) : ScrapedData :=
  { game := parse p
    metadata :=
      { id := item_id, url := url_base ++ item_id, timestamp := ts
        errors := [], scrape_failed := false } }

/-- The minimal error record built by the `except` branch of `scrape_page`
(scraper.py lines 134-157): metadata only, with
`errors = ["Fatal error during scraping: " ++ str(e)]` and
`scrape_failed = True`. -/
def fatal_record (ts url_base item_id e : String) : ScrapedData :=
  { game := empty_game_data
    metadata :=
      { id := item_id, url := url_base ++ item_id, timestamp := ts
        errors := ["Fatal error during scraping: " ++ e], scrape_failed := true } }

/-- Source `WebScraper.scrape_page` (scraper.py lines 87-157), instantiated with the
game parser.  Already-processed ids return `None` with no navigation; a
rendered page is parsed, given metadata, saved and returned; a navigation
failure saves the minimal error record and returns `None`.  `ts` models
`datetime.now().isoformat()` and `url_base` the `url_prefix` field. -/
def scrape_page (w : World) (ts url_base : String) (s : FileStorageManager)
    (item_id : String) : FileStorageManager × Option ScrapedData :=
  if s.is_processed item_id then (s, none)
  else
    match w item_id with
    | Except.ok p =>
      let data := success_record ts url_base item_id p
      ((s.save_data item_id data).1, some data)
    | Except.error e =>
      ((s.save_data item_id (fatal_record ts url_base item_id e)).1, none)

/-- The `RuntimeError` message raised when `scrape_page` returned `None`
(scraper.py lines 182-186). -/
def halt_none_msg (item_id : String) (n : Nat) : String :=
  "Scraping stopped: failed to scrape game " ++ item_id ++ ". Progress saved for "
    ++ toString n ++ " game(s)."

/-- The `RuntimeError` message raised when the returned record is marked
`scrape_failed` (scraper.py lines 189-193). -/
def halt_failed_msg (item_id : String) (n : Nat) : String :=
  "Scraping stopped: game " ++ item_id ++ " failed. Progress saved for "
    ++ toString n ++ " game(s)."

/-- The `RuntimeError` message raised when the returned record has skipped
clues (scraper.py lines 195-201). -/
def halt_skipped_msg (item_id : String) (k n : Nat) : String :=
  "Scraping stopped: game " ++ item_id ++ " had " ++ toString k
    ++ " skipped clue(s). Progress saved for " ++ toString n ++ " game(s)."

/-- The `for item_id in item_ids` loop of `WebScraper.scrape_multiple`
(scraper.py lines 174-204), with `results` the accumulator: stop with the
results once the limit is reached; raise (the `error` case, carrying the
`RuntimeError` message) when `scrape_page` returned `None`, when the record
is marked `scrape_failed`, or when it has skipped clues; otherwise append
the record and continue. -/
def scrape_multiple_go (w : World) (ts url_base : String) :
    FileStorageManager → List String → Option Nat → List ScrapedData →
    FileStorageManager × Except String (List ScrapedData)
  | s, [], _, results => (s, Except.ok results)
  | s, item_id :: rest, limit, results =>
    if (match limit with | some l => decide (l ≤ results.length) | none => false) then
      (s, Except.ok results)
    else
      match scrape_page w ts url_base s item_id with
      | (s2, none) => (s2, Except.error (halt_none_msg item_id results.length))
      | (s2, some r) =>
        if r.metadata.scrape_failed then
          (s2, Except.error (halt_failed_msg item_id results.length))
        else if r.game.skipped_clues.length > 0 then
          (s2, Except.error
            (halt_skipped_msg item_id r.game.skipped_clues.length results.length))
        else
          scrape_multiple_go w ts url_base s2 rest limit (results ++ [r])

/-- Source `WebScraper.scrape_multiple` (scraper.py lines 159-204). -/
def scrape_multiple (w : World) (ts url_base : String) (s : FileStorageManager)
    (item_ids : List String) (limit : Option Nat) :
    FileStorageManager × Except String (List ScrapedData) :=
  scrape_multiple_go w ts url_base s item_ids limit []

/- ===== Shared concrete inputs for witnesses and counterexamples ===== -/

/-- Six category labels, as discovered for a fully-rendered round. -/
def cats6 : List String := ["C1", "C2", "C3", "C4", "C5", "C6"]

/-- A clue element whose every extraction step succeeds. -/
def good_elem : ClueElement :=
  { clue_text := some "q1", has_clue_value := true, has_dd_value := false
    click_result := ClickOutcome.success, correct_response := some "a1"
    outerHTML := "<td>1</td>" }

/-- A clue element whose `.clue_text` child is absent, so its extraction raises. -/
def bad_clue_elem : ClueElement :=
  { clue_text := none, has_clue_value := true, has_dd_value := false
    click_result := ClickOutcome.success, correct_response := some "x"
    outerHTML := "<td>bad</td>" }

/-- A clue element with no revealable response: neither value cell is present
and the `.correct_response` child is absent. -/
def no_resp_elem : ClueElement :=
  { clue_text := some "q2", has_clue_value := false, has_dd_value := false
    click_result := ClickOutcome.success, correct_response := none
    outerHTML := "<td>2</td>" }

/-- Default used only to state `getD`-style hypotheses. -/
def default_clue : ClueElement :=
  { clue_text := none, has_clue_value := false, has_dd_value := false
    click_result := ClickOutcome.success, correct_response := none, outerHTML := "" }

/-- A fully-rendered round with six categories and one good clue. -/
def round_good : RoundElement := { category_names := cats6, clue_elems := [good_elem] }

/-- A page on which every `find_element` raises. -/
def empty_page : GamePage :=
  { game_title := none, jeopardy_round := none, double_jeopardy_round := none
    final_jeopardy_round := none }

/-- A fresh storage manager (no prior state on disk). -/
def storage0 : FileStorageManager :=
  { data_dir := "data/scraped_data", processed_ids := [], processed_file := []
    records := [] }

/-- A record whose metadata carries a non-empty error list. -/
def err_record : ScrapedData :=
  { game := empty_game_data
    metadata := { id := "42", url := "u42", timestamp := "t"
                  errors := ["boom"], scrape_failed := true } }

/-- A record with no errors and no skipped clues. -/
def clean_record : ScrapedData :=
  { game := empty_game_data
    metadata := { id := "x", url := "ux", timestamp := "t"
                  errors := [], scrape_failed := false } }

/- ===== Ledger helper lemmas ===== -/

lemma save_is_processed_self (s : FileStorageManager) (item_id : String)
    (rec : ScrapedData) : (s.save_data item_id rec).1.is_processed item_id = true := by
  simp only [FileStorageManager.save_data, FileStorageManager.mark_as_processed,
    FileStorageManager.is_processed]
  by_cases h : item_id ∈ s.processed_ids <;> simp [h]

lemma save_get_self (s : FileStorageManager) (item_id : String) (rec : ScrapedData) :
    (s.save_data item_id rec).1.get_data item_id = some rec := by
  simp [FileStorageManager.save_data, FileStorageManager.mark_as_processed,
    FileStorageManager.get_data, List.lookup]

lemma save_is_processed_other (s : FileStorageManager) (item_id : String)
    (rec : ScrapedData) (other : String) (h : other ≠ item_id) :
    (s.save_data item_id rec).1.is_processed other = s.is_processed other := by
  simp only [FileStorageManager.save_data, FileStorageManager.mark_as_processed,
    FileStorageManager.is_processed]
  by_cases hc : item_id ∈ s.processed_ids <;> simp [hc, h]

lemma save_get_other (s : FileStorageManager) (item_id : String) (rec : ScrapedData)
    (other : String) (h : other ≠ item_id) :
    (s.save_data item_id rec).1.get_data other = s.get_data other := by
  have hb : (other == item_id) = false := beq_eq_false_iff_ne.mpr h
  simp [FileStorageManager.save_data, FileStorageManager.mark_as_processed,
    FileStorageManager.get_data, List.lookup, hb]

/-- Claim C1 counterexample: saving a record whose error list is non-empty
still puts its id in the `processed` set — `is_processed` is `true` for it,
where the claim requires `false` (so the id would not be retried); there is
no errored set at all in `FileStorageManager`. -/
theorem C1_counterexample :
    err_record.metadata.errors ≠ [] ∧
    (storage0.save_data "42" err_record).1.is_processed "42" = true := by
  exact ⟨by decide, rfl⟩

/-- Claim C1 (amended): `save_data` persists the record keyed by the id
(overwriting any prior value) and then unconditionally adds the id to the
single `processed` set, whatever the record's error list contains; there is
no `errored` set, so an id whose last saved record carries errors is still
`is_processed` and is skipped (not retried) on the next run. -/
theorem C1_amended_thm (s : FileStorageManager) (item_id : String) (rec : ScrapedData) :
    (s.save_data item_id rec).1.is_processed item_id = true ∧
    (s.save_data item_id rec).1.get_data item_id = some rec :=
  ⟨save_is_processed_self s item_id rec, save_get_self s item_id rec⟩

/-- Claim C5 counterexample: after saving ids `"b"` then `"a"` from a fresh
state, the membership file holds the lines `["b", "a"]` — the arrival-order
append log — not the sorted wholesale snapshot `["a", "b"]` the claim
requires. -/
theorem C5_counterexample :
    ((storage0.save_data "b" clean_record).1.save_data "a" clean_record).1.processed_file
      = ["b", "a"] ∧
    ((storage0.save_data "b" clean_record).1.save_data "a" clean_record).1.processed_file
      ≠ ["a", "b"] := by
  exact ⟨rfl, by decide⟩

/-- Claim C5 (amended): on every mutation the id is appended as a single new
line to the one membership file (`processed_ids.txt`, opened in append mode);
the prior contents are kept as a prefix, in arrival order, not rewritten
wholesale and not sorted. -/
theorem C5_amended_thm (s : FileStorageManager) (item_id : String) (rec : ScrapedData) :
    (s.save_data item_id rec).1.processed_file = s.processed_file ++ [item_id] := rfl

/- ===== Dollar-value helper lemmas ===== -/

lemma infer_sj (i : Nat) :
    infer_dollar_value i "SJ" =
      match [200, 400, 600, 800, 1000].get? (i / 6) with
      | some v => Except.ok (some v)
      | none => Except.error "IndexError: list index out of range" := by
  simp [infer_dollar_value]

lemma infer_dj (i : Nat) :
    infer_dollar_value i "DJ" =
      match [400, 800, 1200, 1600, 2000].get? (i / 6) with
      | some v => Except.ok (some v)
      | none => Except.error "IndexError: list index out of range" := by
  have h : ¬ ("DJ" : String) = "SJ" := by decide
  simp [infer_dollar_value, h]

lemma process_clue_dollar (rn : String) (categories : List String) (i : Nat)
    (e : ClueElement) (c : Clue) (h : process_clue rn categories i e = Except.ok c) :
    infer_dollar_value i rn = Except.ok c.dollar_val := by
  unfold process_clue at h
  cases he : e.clue_text with
  | none => rw [he] at h; exact absurd h (by simp)
  | some t =>
    rw [he] at h
    dsimp only at h
    cases hiv : infer_dollar_value i rn with
    | error m => rw [hiv] at h; exact absurd h (by simp)
    | ok dv =>
      rw [hiv] at h
      dsimp only at h
      cases hcv : click_clue_value e with
      | error m => rw [hcv] at h; exact absurd h (by simp)
      | ok u =>
        rw [hcv] at h
        dsimp only at h
        by_cases hl : categories.length = 0
        · rw [if_pos hl] at h; exact absurd h (by simp)
        · rw [if_neg hl] at h
          have hc := Except.ok.inj h
          rw [← hc]

/-- Claim C7: a successfully produced single-round clue at enumeration index
`i` carries `dollar_val` equal to position `i / 6` of the ladder
`[200, 400, 600, 800, 1000]` (the source fixes the column count at 6);
a double-round clue uses the ladder `[400, 800, 1200, 1600, 2000]`; and any
clue appended by the final-round extraction has `dollar_val = none`. -/
theorem C7_thm :
    (∀ (categories : List String) (i : Nat) (e : ClueElement) (c : Clue),
      process_clue "SJ" categories i e = Except.ok c →
      c.dollar_val = [200, 400, 600, 800, 1000].get? (i / 6)) ∧
    (∀ (categories : List String) (i : Nat) (e : ClueElement) (c : Clue),
      process_clue "DJ" categories i e = Except.ok c →
      c.dollar_val = [400, 800, 1200, 1600, 2000].get? (i / 6)) ∧
    (∀ (fr : Option FinalRoundElement) (d : GameData) (c : Clue),
      c ∈ (extract_final_round_data fr d).clues →
      c ∈ d.clues ∨ (c.round = "FJ" ∧ c.dollar_val = none)) := by
  refine ⟨?_, ?_, ?_⟩
  · intro categories i e c h
    have hd := process_clue_dollar "SJ" categories i e c h
    rw [infer_sj] at hd
    cases hg : [(200 : Int), 400, 600, 800, 1000].get? (i / 6) with
    | none => rw [hg] at hd; exact absurd hd (by simp)
    | some v => rw [hg] at hd; dsimp only at hd; exact (Except.ok.inj hd).symm
  · intro categories i e c h
    have hd := process_clue_dollar "DJ" categories i e c h
    rw [infer_dj] at hd
    cases hg : [(400 : Int), 800, 1200, 1600, 2000].get? (i / 6) with
    | none => rw [hg] at hd; exact absurd hd (by simp)
    | some v => rw [hg] at hd; dsimp only at hd; exact (Except.ok.inj hd).symm
  · intro fr d c h
    cases fr with
    | none => exact Or.inl h
    | some f =>
      rcases f with ⟨cn, ct, htr, tc, cr⟩
      cases cn <;> cases ct <;> cases htr <;> cases tc <;> cases cr <;>
        simp_all [extract_final_round_data] <;>
        rcases h with h | h <;> simp_all

/-- A round-one single-round clue produced at index 7 (row 1), witnessing C7. -/
def clue_sj_7 : Clue :=
  { category := "C2", clue_text := "q1", correct_response := "a1", round := "SJ"
    is_daily_double := false, dollar_val := some 400 }

theorem C7_witness :
    process_clue "SJ" cats6 7 good_elem = Except.ok clue_sj_7 ∧
    clue_sj_7.dollar_val = [200, 400, 600, 800, 1000].get? (7 / 6) :=
  ⟨rfl, C7_thm.1 cats6 7 good_elem clue_sj_7 rfl⟩

/-- Claim C8 counterexample: at clue index 30 (row 5) the ladder lookup is
not guarded — `_infer_dollar_value` raises `IndexError`, for both main
rounds. -/
theorem C8_counterexample :
    infer_dollar_value 30 "SJ" = Except.error "IndexError: list index out of range" ∧
    infer_dollar_value 30 "DJ" = Except.error "IndexError: list index out of range" :=
  ⟨rfl, rfl⟩

/-- Claim C8 (amended): for clue index 30 or greater in a main round the
ladder lookup raises `IndexError` (there is no in-function guard and no
silent wrap-around); the per-clue exception handler then records the clue
as skipped, so `process_clue` never returns a mis-valued clue for such an
index. -/
theorem C8_amended_thm (i : Nat) (h : 30 ≤ i) :
    infer_dollar_value i "SJ" = Except.error "IndexError: list index out of range" ∧
    infer_dollar_value i "DJ" = Except.error "IndexError: list index out of range" ∧
    (∀ (categories : List String) (e : ClueElement),
      ∀ c, process_clue "SJ" categories i e ≠ Except.ok c) ∧
    (∀ (categories : List String) (e : ClueElement),
      ∀ c, process_clue "DJ" categories i e ≠ Except.ok c) := by
  have hrow : 5 ≤ i / 6 := (Nat.le_div_iff_mul_le (by norm_num)).mpr (by omega)
  have hsj : infer_dollar_value i "SJ" = Except.error "IndexError: list index out of range" := by
    rw [infer_sj]
    have : [(200 : Int), 400, 600, 800, 1000].get? (i / 6) = none :=
      List.get?_eq_none.mpr (by simpa using hrow)
    rw [this]
  have hdj : infer_dollar_value i "DJ" = Except.error "IndexError: list index out of range" := by
    rw [infer_dj]
    have : [(400 : Int), 800, 1200, 1600, 2000].get? (i / 6) = none :=
      List.get?_eq_none.mpr (by simpa using hrow)
    rw [this]
  refine ⟨hsj, hdj, ?_, ?_⟩
  · intro categories e c hok
    have := process_clue_dollar "SJ" categories i e c hok
    rw [hsj] at this
    exact absurd this (by simp)
  · intro categories e c hok
    have := process_clue_dollar "DJ" categories i e c hok
    rw [hdj] at this
    exact absurd this (by simp)

theorem C8_witness :
    (30 ≤ 30) ∧
    infer_dollar_value 30 "SJ" = Except.error "IndexError: list index out of range" ∧
    (∀ c, process_clue "SJ" cats6 30 good_elem ≠ Except.ok c) :=
  ⟨le_refl 30, (C8_amended_thm 30 (le_refl 30)).1,
    (C8_amended_thm 30 (le_refl 30)).2.2.1 cats6 good_elem⟩

/-- Claim C9 counterexample: when the revealed response element is absent the
produced response is the sentinel `"[Unknown]"` (capital U), not the claimed
`"[unknown]"`; the surrounding clue extraction still succeeds without error. -/
theorem C9_counterexample :
    extract_correct_response no_resp_elem = "[Unknown]" ∧
    extract_correct_response no_resp_elem ≠ "[unknown]" ∧
    process_clue "SJ" cats6 0 no_resp_elem =
      Except.ok ⟨"C1", "q2", "[Unknown]", "SJ", false, some 200⟩ := by
  exact ⟨rfl, by decide, rfl⟩

/-- Claim C9 (amended): if the revealed response element is absent the
produced clue's `correct_response` is the sentinel `"[Unknown]"`; reveal
interaction failures — no clickable value cell, a click raising
`NoSuchElementException`, or an intercepted click — are swallowed by
`_click_clue_value` (it returns normally), so no error is propagated or
recorded for the clue. -/
theorem C9_amended_thm :
    (∀ e : ClueElement, e.correct_response = none →
      extract_correct_response e = "[Unknown]") ∧
    (∀ e : ClueElement, e.has_clue_value = false → e.has_dd_value = false →
      click_clue_value e = Except.ok ()) ∧
    (∀ e : ClueElement, e.click_result = ClickOutcome.notFound →
      click_clue_value e = Except.ok ()) ∧
    (∀ e : ClueElement, e.click_result = ClickOutcome.intercepted →
      click_clue_value e = Except.ok ()) := by
  refine ⟨?_, ?_, ?_, ?_⟩
  · intro e h; unfold extract_correct_response; rw [h]
  · intro e h1 h2; unfold click_clue_value; rw [h1, h2]; rfl
  · intro e h; unfold click_clue_value; rw [h]
    by_cases hv : (e.has_clue_value || e.has_dd_value) = true <;> simp [hv]
  · intro e h; unfold click_clue_value; rw [h]
    by_cases hv : (e.has_clue_value || e.has_dd_value) = true <;> simp [hv]

theorem C9_amended_witness :
    extract_correct_response no_resp_elem = "[Unknown]" ∧
    click_clue_value no_resp_elem = Except.ok () :=
  ⟨C9_amended_thm.1 no_resp_elem rfl, C9_amended_thm.2.1 no_resp_elem rfl rfl⟩

/- ===== Category-assignment helper lemmas ===== -/

lemma process_clue_nil_cats (rn : String) (i : Nat) (e : ClueElement) :
    ∃ m, process_clue rn [] i e = Except.error m := by
  unfold process_clue
  cases he : e.clue_text with
  | none => exact ⟨_, rfl⟩
  | some t =>
    cases hiv : infer_dollar_value i rn with
    | error m => exact ⟨m, rfl⟩
    | ok dv =>
      cases hcv : click_clue_value e with
      | error m => exact ⟨m, rfl⟩
      | ok u =>
        refine ⟨"ZeroDivisionError: integer division or modulo by zero", ?_⟩
        simp

/-- Claim C10: with an empty discovered category list every clue of the round
raises (at the `clue_index % len(categories)` step at the latest, a
`ZeroDivisionError`), so the round contributes nothing to `clues` and one
skipped entry per clue element; with a non-empty category list the computed
index `i % len(categories)` is always strictly below the length, so the
`"Unknown"` fallback branch of the category assignment is never taken. -/
theorem C10_thm :
    (∀ (rn : String) (elems : List ClueElement) (i : Nat) (d : GameData),
      (process_clues rn [] i elems d).clues = d.clues ∧
      (process_clues rn [] i elems d).skipped_clues.length =
        d.skipped_clues.length + elems.length) ∧
    (∀ (categories : List String) (i : Nat), categories ≠ [] →
      i % categories.length < categories.length ∧
      assign_category categories i = categories.getD (i % categories.length) "") := by
  constructor
  · intro rn elems
    induction elems with
    | nil => intro i d; exact ⟨rfl, rfl⟩
    | cons e rest ih =>
      intro i d
      obtain ⟨m, hm⟩ := process_clue_nil_cats rn i e
      have h2 := ih (i + 1)
        { d with skipped_clues := d.skipped_clues ++ [⟨rn, m, e.outerHTML⟩] }
      unfold process_clues
      rw [hm]
      refine ⟨h2.1, ?_⟩
      rw [h2.2]
      simp
      omega
  · intro categories i h
    have hl : 0 < categories.length := List.length_pos.mpr h
    have hm : i % categories.length < categories.length := Nat.mod_lt i hl
    exact ⟨hm, by unfold assign_category; rw [if_pos hm]⟩

theorem C10_witness :
    (process_clues "SJ" [] 0 [good_elem] empty_game_data).clues = [] ∧
    (process_clues "SJ" [] 0 [good_elem] empty_game_data).skipped_clues.length = 1 ∧
    7 % cats6.length < cats6.length ∧
    assign_category cats6 7 = "C2" := by
  have h1 := C10_thm.1 "SJ" [good_elem] 0 empty_game_data
  have h2 := C10_thm.2 cats6 7 (by decide)
  exact ⟨h1.1, h1.2, h2.1, h2.2.trans rfl⟩

/- ===== C4: no section-level error is recorded in the produced record ===== -/

/-- A game page whose `#game_title` element is absent (metadata extraction
fails) but whose first round is fully rendered. -/
def pmeta_fail : GamePage :=
  { game_title := none, jeopardy_round := some round_good
    double_jeopardy_round := none, final_jeopardy_round := none }

/-- A game page with good metadata, an absent `#jeopardy_round` container
(the round lookup fails) and a fully rendered double round. -/
def pround_fail : GamePage :=
  { game_title := some "Show #1 - 2020-01-01", jeopardy_round := none
    double_jeopardy_round := some round_good, final_jeopardy_round := none }

/-- A season-list page whose `#content` (or its table) is absent, so the
extraction raises. -/
def bad_list_page : SeasonListPage := { content_table := none }

/-- Claim C4 counterexample: `GameData` (the parser's dict) has no `errors`
key at all, so no failure can be "recorded in the produced Record's errors".
Concretely: with the metadata element absent, the record has only null
metadata fields and no error entry anywhere (extraction continues); with the
first round's container absent, no round-level error is appended (the record
holds only the other round's clue and an empty `skipped_clues`); and a failed
list-kind extraction yields exactly `{"game_ids": []}` with no error entry. -/
theorem C4_counterexample :
    parse pmeta_fail =
      { game_id := none, game_date := none
        clues := [⟨"C1", "q1", "a1", "SJ", false, some 200⟩], skipped_clues := [] } ∧
    parse pround_fail =
      { game_id := some 1, game_date := some "2020-01-01"
        clues := [⟨"C1", "q1", "a1", "DJ", false, some 400⟩], skipped_clues := [] } ∧
    parse_season_list bad_list_page = { game_ids := [] } :=
  ⟨rfl, rfl, rfl⟩

/-- Claim C4 (amended): section-level failures are swallowed (only printed),
never recorded in the produced record. A failed round-container lookup leaves
the record exactly as it was (no round-level error is appended) and
extraction moves to the next section; a failed metadata extraction leaves
`game_id` and `game_date` null while the rounds are still extracted; a failed
list-kind extraction produces `{"game_ids": []}` with no error entry. -/
theorem C4_amended_thm :
    (∀ (rn : String) (d : GameData), extract_main_round_data none rn d = d) ∧
    (∀ p : GamePage, p.game_title = none →
      parse p = extract_final_round_data p.final_jeopardy_round
        (extract_main_round_data p.double_jeopardy_round "DJ"
          (extract_main_round_data p.jeopardy_round "SJ" empty_game_data))) ∧
    (∀ p : SeasonListPage, p.content_table = none →
      parse_season_list p = { game_ids := [] }) := by
  refine ⟨fun rn d => rfl, ?_, ?_⟩
  · intro p h
    unfold parse extract_game_metadata
    rw [h]
    rfl
  · intro p h
    unfold parse_season_list extract_game_ids
    rw [h]

theorem C4_witness :
    extract_main_round_data none "SJ" empty_game_data = empty_game_data ∧
    parse empty_page = extract_final_round_data none
      (extract_main_round_data none "DJ"
        (extract_main_round_data none "SJ" empty_game_data)) ∧
    parse_season_list bad_list_page = { game_ids := [] } :=
  ⟨C4_amended_thm.1 "SJ" empty_game_data, C4_amended_thm.2.1 empty_page rfl,
    C4_amended_thm.2.2 bad_list_page rfl⟩

/- ===== Clue-loop characterization helpers (for sub-unit isolation) ===== -/

/-- The clues the loop body appends, clue by clue, starting at index `i`. -/
def clue_results (rn : String) (cats : List String) : Nat → List ClueElement → List Clue
  | _, [] => []
  | i, e :: rest =>
    (match process_clue rn cats i e with
     | Except.ok c => [c]
     | Except.error _ => []) ++ clue_results rn cats (i + 1) rest

/-- The skipped entries the loop body appends, clue by clue, starting at `i`. -/
def skip_results (rn : String) (cats : List String) :
    Nat → List ClueElement → List SkippedClue
  | _, [] => []
  | i, e :: rest =>
    (match process_clue rn cats i e with
     | Except.ok _ => []
     | Except.error m => [⟨rn, m, e.outerHTML⟩]) ++ skip_results rn cats (i + 1) rest

lemma process_clues_eq (rn : String) (cats : List String) (elems : List ClueElement) :
    ∀ (i : Nat) (d : GameData),
      process_clues rn cats i elems d =
        { d with clues := d.clues ++ clue_results rn cats i elems
                 skipped_clues := d.skipped_clues ++ skip_results rn cats i elems } := by
  induction elems with
  | nil => intro i d; simp [process_clues, clue_results, skip_results]
  | cons e rest ih =>
    intro i d
    simp only [process_clues, clue_results, skip_results]
    cases h : process_clue rn cats i e with
    | ok c => rw [ih]; simp
    | error m => rw [ih]; simp

lemma clue_results_append (rn : String) (cats : List String) (xs : List ClueElement) :
    ∀ (ys : List ClueElement) (i : Nat),
      clue_results rn cats i (xs ++ ys) =
        clue_results rn cats i xs ++ clue_results rn cats (i + xs.length) ys := by
  induction xs with
  | nil => intro ys i; simp [clue_results]
  | cons e rest ih =>
    intro ys i
    rw [List.cons_append]
    simp only [clue_results]
    rw [ih ys (i + 1), ← List.append_assoc]
    have harith : i + 1 + rest.length = i + (e :: rest).length := by
      simp only [List.length_cons]
      omega
    rw [harith]

lemma skip_results_append (rn : String) (cats : List String) (xs : List ClueElement) :
    ∀ (ys : List ClueElement) (i : Nat),
      skip_results rn cats i (xs ++ ys) =
        skip_results rn cats i xs ++ skip_results rn cats (i + xs.length) ys := by
  induction xs with
  | nil => intro ys i; simp [skip_results]
  | cons e rest ih =>
    intro ys i
    rw [List.cons_append]
    simp only [skip_results]
    rw [ih ys (i + 1), ← List.append_assoc]
    have harith : i + 1 + rest.length = i + (e :: rest).length := by
      simp only [List.length_cons]
      omega
    rw [harith]

lemma results_of_all_ok (rn : String) (cats : List String) (elems : List ClueElement) :
    ∀ i : Nat,
      (∀ j, j < elems.length →
        ∃ c, process_clue rn cats (i + j) (elems.getD j default_clue) = Except.ok c) →
      skip_results rn cats i elems = [] ∧
      (clue_results rn cats i elems).length = elems.length := by
  induction elems with
  | nil => intro i _; exact ⟨rfl, rfl⟩
  | cons e rest ih =>
    intro i h
    obtain ⟨c, hc⟩ := h 0 (by simp)
    rw [show (e :: rest).getD 0 default_clue = e from rfl, Nat.add_zero] at hc
    have hrest := ih (i + 1) (fun j hj => by
      have hx := h (j + 1) (by simpa using Nat.succ_lt_succ hj)
      rw [show (e :: rest).getD (j + 1) default_clue = rest.getD j default_clue from rfl,
        show i + (j + 1) = i + 1 + j from by omega] at hx
      exact hx)
    constructor
    · simp only [skip_results]
      rw [hc]
      simp [hrest.1]
    · simp only [clue_results]
      rw [hc]
      simp [hrest.2]

/-- Claim C6: in a main-round clue list where exactly the clue at position
`pre.length` raises and every other clue extracts successfully, the produced
data contains all the other clues, in order, and exactly one skipped entry —
carrying the round name, the error message and the failed element's raw
markup — after which extraction moved on to the clues that follow. -/
theorem C6_thm (rn : String) (cats : List String) (pre post : List ClueElement)
    (bad : ClueElement) (msg : String)
    (hpre : ∀ j, j < pre.length →
      ∃ c, process_clue rn cats j (pre.getD j default_clue) = Except.ok c)
    (hbad : process_clue rn cats pre.length bad = Except.error msg)
    (hpost : ∀ j, j < post.length →
      ∃ c, process_clue rn cats (pre.length + 1 + j) (post.getD j default_clue) = Except.ok c) :
    (process_clues rn cats 0 (pre ++ bad :: post) empty_game_data).skipped_clues =
      [⟨rn, msg, bad.outerHTML⟩] ∧
    (process_clues rn cats 0 (pre ++ bad :: post) empty_game_data).clues =
      clue_results rn cats 0 pre ++ clue_results rn cats (pre.length + 1) post ∧
    (process_clues rn cats 0 (pre ++ bad :: post) empty_game_data).clues.length =
      pre.length + post.length := by
  have hpre' := results_of_all_ok rn cats pre 0 (fun j hj => by simpa using hpre j hj)
  have hpost' := results_of_all_ok rn cats post (pre.length + 1) hpost
  rw [process_clues_eq]
  have hsplit_c := clue_results_append rn cats pre (bad :: post) 0
  have hsplit_s := skip_results_append rn cats pre (bad :: post) 0
  rw [Nat.zero_add] at hsplit_c hsplit_s
  have hbad_c : clue_results rn cats pre.length (bad :: post) =
      clue_results rn cats (pre.length + 1) post := by
    simp only [clue_results]
    rw [hbad]
    simp
  have hbad_s : skip_results rn cats pre.length (bad :: post) =
      ⟨rn, msg, bad.outerHTML⟩ :: skip_results rn cats (pre.length + 1) post := by
    simp only [skip_results]
    rw [hbad]
    simp
  refine ⟨?_, ?_, ?_⟩
  · show [] ++ skip_results rn cats 0 (pre ++ bad :: post) = _
    rw [hsplit_s, hbad_s, hpre'.1, hpost'.1]
    simp
  · show [] ++ clue_results rn cats 0 (pre ++ bad :: post) = _
    rw [hsplit_c, hbad_c]
    simp
  · show ([] ++ clue_results rn cats 0 (pre ++ bad :: post)).length = _
    rw [hsplit_c, hbad_c]
    simp [hpre'.2, hpost'.2]

theorem C6_witness :
    (process_clues "SJ" cats6 0 ([good_elem] ++ bad_clue_elem :: [good_elem])
        empty_game_data).skipped_clues =
      [⟨"SJ", "NoSuchElementException: clue_text", "<td>bad</td>"⟩] ∧
    (process_clues "SJ" cats6 0 ([good_elem] ++ bad_clue_elem :: [good_elem])
        empty_game_data).clues =
      clue_results "SJ" cats6 0 [good_elem] ++
        clue_results "SJ" cats6 ([good_elem].length + 1) [good_elem] ∧
    (process_clues "SJ" cats6 0 ([good_elem] ++ bad_clue_elem :: [good_elem])
        empty_game_data).clues.length = [good_elem].length + [good_elem].length :=
  C6_thm "SJ" cats6 [good_elem] [good_elem] bad_clue_elem
    "NoSuchElementException: clue_text"
    (fun j hj => by
      have hj0 : j = 0 := Nat.lt_one_iff.mp (by simpa using hj)
      subst hj0
      exact ⟨⟨"C1", "q1", "a1", "SJ", false, some 200⟩, rfl⟩)
    rfl
    (fun j hj => by
      have hj0 : j = 0 := Nat.lt_one_iff.mp (by simpa using hj)
      subst hj0
      exact ⟨⟨"C3", "q1", "a1", "SJ", false, some 200⟩, rfl⟩)

/- ===== C2: orchestrator behaviour on already-processed ids ===== -/

/-- Storage whose ledger already lists id `"100"` as processed. -/
def s100 : FileStorageManager :=
  { data_dir := "d", processed_ids := ["100"], processed_file := ["100"], records := [] }

/-- A world in which every page renders and parses fully clean. -/
def w_clean : World := fun _ => Except.ok empty_page

/-- A world in which every navigation raises. -/
def w_nav_fail : World := fun _ => Except.error "nav failure"

/-- Claim C2, evaluated at the failing input.  The first half of the claim
holds: for the already-processed id `"100"`, `scrape_page` returns `None`
without touching the page (the result is identical whether navigation would
succeed or raise, and the storage is unchanged).  The second half fails:
`scrape_multiple` cannot tell this skip-`None` from a fatal-failure-`None`,
so on the id list `["100", "101"]` it raises
`"Scraping stopped: failed to scrape game 100. Progress saved for 0 game(s)."`
at the first already-processed id instead of proceeding to `"101"`, which
stays unscraped (still not processed) even though its page is clean. -/
theorem C2_failing_eval :
    scrape_page w_clean "t" "u" s100 "100" = (s100, none) ∧
    scrape_page w_nav_fail "t" "u" s100 "100" = (s100, none) ∧
    scrape_multiple w_clean "t" "u" s100 ["100", "101"] none =
      (s100, Except.error (halt_none_msg "100" 0)) ∧
    (scrape_multiple w_clean "t" "u" s100 ["100", "101"] none).1.is_processed "101"
      = false :=
  ⟨rfl, rfl, rfl, rfl⟩

/- ===== Scraper step lemmas (for the batch-halt theorem) ===== -/

lemma scrape_page_skip (w : World) (ts ub : String) (s : FileStorageManager)
    (item_id : String) (h : s.is_processed item_id = true) :
    scrape_page w ts ub s item_id = (s, none) := by
  unfold scrape_page
  rw [h]
  simp

lemma scrape_page_ok (w : World) (ts ub : String) (s : FileStorageManager)
    (item_id : String) (p : GamePage) (h : s.is_processed item_id = false)
    (hw : w item_id = Except.ok p) :
    scrape_page w ts ub s item_id =
      ((s.save_data item_id (success_record ts ub item_id p)).1,
        some (success_record ts ub item_id p)) := by
  unfold scrape_page
  rw [h, hw]
  simp

lemma scrape_page_fatal (w : World) (ts ub : String) (s : FileStorageManager)
    (item_id : String) (e : String) (h : s.is_processed item_id = false)
    (hw : w item_id = Except.error e) :
    scrape_page w ts ub s item_id =
      ((s.save_data item_id (fatal_record ts ub item_id e)).1, none) := by
  unfold scrape_page
  rw [h, hw]
  simp

/-- A page at `id` renders and its parse yields no skipped clues. -/
def clean_at (w : World) (item_id : String) : Prop :=
  ∃ p, w item_id = Except.ok p ∧ (parse p).skipped_clues = []

/-- A page at `id` either fails to render (fatal) or parses with at least one
skipped clue. -/
def bad_at (w : World) (item_id : String) : Prop :=
  (∃ e, w item_id = Except.error e) ∨
  (∃ p, w item_id = Except.ok p ∧ (parse p).skipped_clues ≠ [])

lemma go_cons_none (w : World) (ts ub : String) (s : FileStorageManager)
    (item_id : String) (rest : List String) (results : List ScrapedData) :
    scrape_multiple_go w ts ub s (item_id :: rest) none results =
      match scrape_page w ts ub s item_id with
      | (s2, none) => (s2, Except.error (halt_none_msg item_id results.length))
      | (s2, some r) =>
        if r.metadata.scrape_failed then
          (s2, Except.error (halt_failed_msg item_id results.length))
        else if r.game.skipped_clues.length > 0 then
          (s2, Except.error
            (halt_skipped_msg item_id r.game.skipped_clues.length results.length))
        else scrape_multiple_go w ts ub s2 rest none (results ++ [r]) := rfl

lemma go_all_clean (w : World) (ts ub : String) :
    ∀ (ids : List String) (s : FileStorageManager) (acc : List ScrapedData),
      ids.Nodup →
      (∀ id ∈ ids, s.is_processed id = false) →
      (∀ id ∈ ids, clean_at w id) →
      ∃ (s2 : FileStorageManager) (recs : List ScrapedData),
        scrape_multiple_go w ts ub s ids none acc = (s2, Except.ok (acc ++ recs)) ∧
        recs.length = ids.length ∧
        (∀ r ∈ recs, r.metadata.errors = [] ∧ r.metadata.scrape_failed = false ∧
          r.game.skipped_clues = []) ∧
        (∀ id ∈ ids, s2.is_processed id = true ∧
          ∃ p, w id = Except.ok p ∧ s2.get_data id = some (success_record ts ub id p)) ∧
        (∀ id, id ∉ ids →
          s2.is_processed id = s.is_processed id ∧ s2.get_data id = s.get_data id) := by
  intro ids
  induction ids with
  | nil =>
    intro s acc _ _ _
    refine ⟨s, [], by simp [scrape_multiple_go], rfl, by simp, by simp, fun id _ => ⟨rfl, rfl⟩⟩
  | cons a rest ih =>
    intro s acc hnd hproc hclean
    obtain ⟨p, hw, hskip⟩ := hclean a (by simp)
    have hpa : s.is_processed a = false := hproc a (by simp)
    have hnd' := List.nodup_cons.mp hnd
    have hstep : scrape_multiple_go w ts ub s (a :: rest) none acc =
        scrape_multiple_go w ts ub ((s.save_data a (success_record ts ub a p)).1)
          rest none (acc ++ [success_record ts ub a p]) := by
      rw [go_cons_none, scrape_page_ok w ts ub s a p hpa hw]
      have hsf : (success_record ts ub a p).metadata.scrape_failed = false := rfl
      have hsk : (success_record ts ub a p).game.skipped_clues = [] := hskip
      simp [hsf, hsk]
    have hproc1 : ∀ id ∈ rest,
        ((s.save_data a (success_record ts ub a p)).1).is_processed id = false := by
      intro id hid
      have hne : id ≠ a := fun he => hnd'.1 (he ▸ hid)
      rw [save_is_processed_other s a (success_record ts ub a p) id hne]
      exact hproc id (by simp [hid])
    have hclean1 : ∀ id ∈ rest, clean_at w id := fun id hid => hclean id (by simp [hid])
    obtain ⟨s2, recs, heq, hlen, hrecs, hin, hout⟩ :=
      ih ((s.save_data a (success_record ts ub a p)).1)
        (acc ++ [success_record ts ub a p]) hnd'.2 hproc1 hclean1
    refine ⟨s2, success_record ts ub a p :: recs, ?_, by simp [hlen], ?_, ?_, ?_⟩
    · rw [hstep, heq]
      simp
    · intro r2 hr2
      rcases List.mem_cons.mp hr2 with h | h
      · subst h
        exact ⟨rfl, rfl, hskip⟩
      · exact hrecs r2 h
    · intro id hid
      rcases List.mem_cons.mp hid with h | h
      · subst h
        have hna := hout id hnd'.1
        refine ⟨?_, p, hw, ?_⟩
        · rw [hna.1]
          exact save_is_processed_self s id (success_record ts ub id p)
        · rw [hna.2]
          exact save_get_self s id (success_record ts ub id p)
      · exact hin id h
    · intro id hid
      have hid' : id ∉ rest := fun hx => hid (by simp [hx])
      have hne : id ≠ a := fun he => hid (by simp [he])
      have h1 := hout id hid'
      rw [h1.1, h1.2, save_is_processed_other s a (success_record ts ub a p) id hne,
        save_get_other s a (success_record ts ub a p) id hne]
      exact ⟨rfl, rfl⟩

lemma go_clean_then_bad (w : World) (ts ub : String) :
    ∀ (pre : List String) (bad : String) (post : List String) (s : FileStorageManager)
      (acc : List ScrapedData),
      (pre ++ [bad]).Nodup →
      (∀ id ∈ pre ++ [bad], s.is_processed id = false) →
      (∀ id ∈ pre, clean_at w id) →
      bad_at w bad →
      ∃ (s2 : FileStorageManager) (msg : String) (recb : ScrapedData),
        scrape_multiple_go w ts ub s (pre ++ bad :: post) none acc =
          (s2, Except.error msg) ∧
        (msg = halt_none_msg bad (acc.length + pre.length) ∨
          ∃ k, 0 < k ∧ msg = halt_skipped_msg bad k (acc.length + pre.length)) ∧
        s2.is_processed bad = true ∧
        s2.get_data bad = some recb ∧
        (recb.metadata.scrape_failed = true ∨ recb.game.skipped_clues ≠ []) ∧
        (∀ id ∈ pre, s2.is_processed id = true ∧
          ∃ p, w id = Except.ok p ∧ s2.get_data id = some (success_record ts ub id p)) ∧
        (∀ id, id ∉ pre → id ≠ bad →
          s2.is_processed id = s.is_processed id ∧ s2.get_data id = s.get_data id) ∧
        (∀ w2 : World, (∀ id ∈ pre ++ [bad], w2 id = w id) →
          scrape_multiple_go w2 ts ub s (pre ++ bad :: post) none acc =
            (s2, Except.error msg)) := by
  intro pre
  induction pre with
  | nil =>
    intro bad post s acc _ hproc _ hbad
    have hpb : s.is_processed bad = false := hproc bad (by simp)
    rcases hbad with ⟨e, hw⟩ | ⟨p, hw, hsk⟩
    · refine ⟨(s.save_data bad (fatal_record ts ub bad e)).1,
        halt_none_msg bad acc.length, fatal_record ts ub bad e, ?_, ?_, ?_, ?_, ?_, ?_, ?_, ?_⟩
      · rw [List.nil_append, go_cons_none, scrape_page_fatal w ts ub s bad e hpb hw]
      · exact Or.inl rfl
      · exact save_is_processed_self s bad (fatal_record ts ub bad e)
      · exact save_get_self s bad (fatal_record ts ub bad e)
      · exact Or.inl rfl
      · intro id hid
        exact absurd hid (List.not_mem_nil id)
      · intro id _ hne
        exact ⟨save_is_processed_other s bad (fatal_record ts ub bad e) id hne,
          save_get_other s bad (fatal_record ts ub bad e) id hne⟩
      · intro w2 hw2
        have hw2b : w2 bad = Except.error e := (hw2 bad (by simp)).trans hw
        rw [List.nil_append, go_cons_none, scrape_page_fatal w2 ts ub s bad e hpb hw2b]
    · have hkpos : 0 < (parse p).skipped_clues.length := List.length_pos.mpr hsk
      have hstep : ∀ w3 : World, w3 bad = Except.ok p →
          scrape_multiple_go w3 ts ub s ([] ++ bad :: post) none acc =
            ((s.save_data bad (success_record ts ub bad p)).1,
              Except.error
                (halt_skipped_msg bad (parse p).skipped_clues.length acc.length)) := by
        intro w3 hw3
        rw [List.nil_append, go_cons_none, scrape_page_ok w3 ts ub s bad p hpb hw3]
        have hsf : (success_record ts ub bad p).metadata.scrape_failed = false := rfl
        have hgame : (success_record ts ub bad p).game.skipped_clues =
            (parse p).skipped_clues := rfl
        simp [hsf, hgame, hkpos]
      refine ⟨(s.save_data bad (success_record ts ub bad p)).1,
        halt_skipped_msg bad (parse p).skipped_clues.length acc.length,
        success_record ts ub bad p, hstep w hw, ?_, ?_, ?_, ?_, ?_, ?_, ?_⟩
      · exact Or.inr ⟨(parse p).skipped_clues.length, hkpos, rfl⟩
      · exact save_is_processed_self s bad (success_record ts ub bad p)
      · exact save_get_self s bad (success_record ts ub bad p)
      · exact Or.inr hsk
      · intro id hid
        exact absurd hid (List.not_mem_nil id)
      · intro id _ hne
        exact ⟨save_is_processed_other s bad (success_record ts ub bad p) id hne,
          save_get_other s bad (success_record ts ub bad p) id hne⟩
      · intro w2 hw2
        exact hstep w2 ((hw2 bad (by simp)).trans hw)
  | cons a pre' ih =>
    intro bad post s acc hnd hproc hclean hbad
    obtain ⟨p, hw, hskip⟩ := hclean a (by simp)
    have hpa : s.is_processed a = false := hproc a (by simp)
    have hnd0 : a ∉ pre' ++ [bad] := (List.nodup_cons.mp (by simpa using hnd)).1
    have hnd' : (pre' ++ [bad]).Nodup := (List.nodup_cons.mp (by simpa using hnd)).2
    have hab : a ≠ bad := fun he => hnd0 (by simp [he])
    have hstep : ∀ w3 : World, w3 a = Except.ok p →
        scrape_multiple_go w3 ts ub s ((a :: pre') ++ bad :: post) none acc =
          scrape_multiple_go w3 ts ub ((s.save_data a (success_record ts ub a p)).1)
            (pre' ++ bad :: post) none (acc ++ [success_record ts ub a p]) := by
      intro w3 hw3
      rw [List.cons_append, go_cons_none, scrape_page_ok w3 ts ub s a p hpa hw3]
      have hsf : (success_record ts ub a p).metadata.scrape_failed = false := rfl
      have hsk : (success_record ts ub a p).game.skipped_clues = [] := hskip
      simp [hsf, hsk]
    have hproc1 : ∀ id ∈ pre' ++ [bad],
        ((s.save_data a (success_record ts ub a p)).1).is_processed id = false := by
      intro id hid
      have hne : id ≠ a := fun he => hnd0 (he ▸ hid)
      rw [save_is_processed_other s a (success_record ts ub a p) id hne]
      exact hproc id (by simp [List.mem_append] at hid ⊢; tauto)
    have hclean1 : ∀ id ∈ pre', clean_at w id := fun id hid => hclean id (by simp [hid])
    obtain ⟨s2, msg, recb, heq, hmsg, hpb2, hgb2, hrb2, hin, hout, hw2⟩ :=
      ih bad post ((s.save_data a (success_record ts ub a p)).1)
        (acc ++ [success_record ts ub a p]) hnd' hproc1 hclean1 hbad
    have harith : (acc ++ [success_record ts ub a p]).length + pre'.length =
        acc.length + (a :: pre').length := by
      simp only [List.length_append, List.length_cons, List.length_nil]
      omega
    rw [harith] at hmsg
    refine ⟨s2, msg, recb, ?_, hmsg, hpb2, hgb2, hrb2, ?_, ?_, ?_⟩
    · rw [hstep w hw, heq]
    · intro id hid
      rcases List.mem_cons.mp hid with h | h
      · subst h
        have hna := hout id (fun hx => hnd0 (by simp [hx])) hab
        refine ⟨?_, p, hw, ?_⟩
        · rw [hna.1]
          exact save_is_processed_self s id (success_record ts ub id p)
        · rw [hna.2]
          exact save_get_self s id (success_record ts ub id p)
      · exact hin id h
    · intro id hid hne_bad
      have hid' : id ∉ pre' := fun hx => hid (by simp [hx])
      have hne : id ≠ a := fun he => hid (by simp [he])
      have h1 := hout id hid' hne_bad
      rw [h1.1, h1.2, save_is_processed_other s a (success_record ts ub a p) id hne,
        save_get_other s a (success_record ts ub a p) id hne]
      exact ⟨rfl, rfl⟩
    · intro w2 hagree
      have hw2a : w2 a = Except.ok p := (hagree a (by simp)).trans hw
      rw [hstep w2 hw2a]
      exact hw2 w2 (fun id hid => hagree id (by simp [List.mem_append] at hid ⊢; tauto))

/-- Claim C3: running `scrape_multiple` (uncapped) over an id list whose
prefix is unprocessed and fully clean and whose next id is bad — its page
fails to render (producing a record marked `scrape_failed`) or parses with
skipped clues — raises right after that record is persisted: the result is
the `error` case whose message carries the count of items that succeeded
before the halt; the bad id's record is persisted (marked failed or holding
its skipped clues); every clean prefix record remains persisted; every other
id's storage entry is untouched, and the outcome does not depend on the world
beyond the prefix and the bad id (later ids are never rendered).  Run over
just the clean prefix, the batch returns one clean in-memory record per id. -/
theorem C3_thm (w : World) (ts ub : String) (s : FileStorageManager)
    (pre : List String) (bad : String) (post : List String)
    (hnd : (pre ++ [bad]).Nodup)
    (hproc : ∀ id ∈ pre ++ [bad], s.is_processed id = false)
    (hclean : ∀ id ∈ pre, clean_at w id)
    (hbad : bad_at w bad) :
    (∃ s2 msg recb,
      scrape_multiple w ts ub s (pre ++ bad :: post) none = (s2, Except.error msg) ∧
      (msg = halt_none_msg bad pre.length ∨
        ∃ k, 0 < k ∧ msg = halt_skipped_msg bad k pre.length) ∧
      s2.is_processed bad = true ∧
      s2.get_data bad = some recb ∧
      (recb.metadata.scrape_failed = true ∨ recb.game.skipped_clues ≠ []) ∧
      (∀ id ∈ pre, s2.is_processed id = true ∧
        ∃ p, w id = Except.ok p ∧ s2.get_data id = some (success_record ts ub id p)) ∧
      (∀ id, id ∉ pre → id ≠ bad →
        s2.is_processed id = s.is_processed id ∧ s2.get_data id = s.get_data id) ∧
      (∀ w2 : World, (∀ id ∈ pre ++ [bad], w2 id = w id) →
        scrape_multiple w2 ts ub s (pre ++ bad :: post) none =
          (s2, Except.error msg))) ∧
    (∃ s3 recs,
      scrape_multiple w ts ub s pre none = (s3, Except.ok recs) ∧
      recs.length = pre.length ∧
      (∀ r ∈ recs, r.metadata.errors = [] ∧ r.metadata.scrape_failed = false ∧
        r.game.skipped_clues = [])) := by
  constructor
  · obtain ⟨s2, msg, recb, heq, hmsg, h1, h2, h3, h4, h5, h6⟩ :=
      go_clean_then_bad w ts ub pre bad post s [] hnd hproc hclean hbad
    simp only [List.length_nil, Nat.zero_add] at hmsg
    exact ⟨s2, msg, recb, heq, hmsg, h1, h2, h3, h4, h5, h6⟩
  · have hndpre : pre.Nodup := (List.nodup_append.mp hnd).1
    have hprocpre : ∀ id ∈ pre, s.is_processed id = false := fun id hid =>
      hproc id (by simp [hid])
    obtain ⟨s3, recs, heq, hlen, hrecs, _, _⟩ :=
      go_all_clean w ts ub pre s [] hndpre hprocpre hclean
    exact ⟨s3, recs, by simpa [scrape_multiple] using heq, hlen, hrecs⟩

/-- World for the C3 witness: id `"2"` fails to render, every other page is
rendered and parses clean. -/
def w_demo : World := fun item_id =>
  if item_id = "2" then Except.error "boom" else Except.ok empty_page

theorem C3_witness :
    (∃ s2 msg recb,
      scrape_multiple w_demo "t" "u" storage0 (["1"] ++ "2" :: ["3"]) none =
        (s2, Except.error msg) ∧
      (msg = halt_none_msg "2" ["1"].length ∨
        ∃ k, 0 < k ∧ msg = halt_skipped_msg "2" k ["1"].length) ∧
      s2.is_processed "2" = true ∧
      s2.get_data "2" = some recb ∧
      (recb.metadata.scrape_failed = true ∨ recb.game.skipped_clues ≠ []) ∧
      (∀ id ∈ ["1"], s2.is_processed id = true ∧
        ∃ p, w_demo id = Except.ok p ∧
          s2.get_data id = some (success_record "t" "u" id p)) ∧
      (∀ id, id ∉ ["1"] → id ≠ "2" →
        s2.is_processed id = storage0.is_processed id ∧
        s2.get_data id = storage0.get_data id) ∧
      (∀ w2 : World, (∀ id ∈ ["1"] ++ ["2"], w2 id = w_demo id) →
        scrape_multiple w2 "t" "u" storage0 (["1"] ++ "2" :: ["3"]) none =
          (s2, Except.error msg))) ∧
    (∃ s3 recs,
      scrape_multiple w_demo "t" "u" storage0 ["1"] none = (s3, Except.ok recs) ∧
      recs.length = ["1"].length ∧
      (∀ r ∈ recs, r.metadata.errors = [] ∧ r.metadata.scrape_failed = false ∧
        r.game.skipped_clues = [])) :=
  C3_thm w_demo "t" "u" storage0 ["1"] "2" ["3"] (by decide) (by decide)
    (fun id hid => by
      have h1 : id = "1" := by simpa using hid
      subst h1
      exact ⟨empty_page, rfl, rfl⟩)
    (Or.inl ⟨"boom", rfl⟩)
